import Mathlib

/-!
Shallow embedding of the checkout-session lifecycle of `src/server.js`
(a SumUp–Shopify payment-orchestration bridge).

Modelling conventions:
- JSON fields that may be `undefined`/`null` in JavaScript are `Option` types.
- Outbound HTTPS calls are passed in as oracles (`Except err result`); the
  list of order-creation payloads a handler issues is returned explicitly,
  so "how many times the commerce platform was called" is observable.
- The in-memory `pendingOrders` map is an association list threaded through
  every handler as explicit state.
- JavaScript numbers that hold integer minor-unit prices are `Nat`; the
  `(x / 100).toFixed(2)` conversion is modelled over `ℚ` (exact for these
  inputs, matching the JS result on integer cents).
-/

namespace Gateway

/-- One entry of a SumUp checkout's `transactions` array. -/
structure Transaction where
  status : String
  transaction_code : Option String
  deriving Repr, DecidableEq

/-- The SumUp checkout object returned by `GET /v0.1/checkouts/:id`
(fields the server reads). `transactions` may be absent (`none`). -/
structure SumUpCheckout where
  id : String
  status : String
  transactions : Option (List Transaction)
  deriving Repr, DecidableEq

/-- JS truthiness of a possibly-absent string (absent and `""` are falsy;
note the string `"0"` is truthy). -/
def jsTruthy : Option String → Bool
  | some s => s ≠ ""
  | none => false

/-- JS `a || b` on a possibly-absent string (source: `item || 'default'`). -/
def jsOrStr (o : Option String) (d : String) : String :=
  match o with
  | some s => if s = "" then d else s
  | none => d

/-- `checkout.transactions.find(txn => txn.status === 'SUCCESSFUL')`
(src/server.js lines 209 and 280). -/
def findSuccessful (txns : List Transaction) : Option Transaction :=
  txns.find? (fun txn => txn.status = "SUCCESSFUL")

/-- Status normalization of `GET /api/check-payment/:checkoutId`
(src/server.js lines 276-285): start from the raw session status and
override to `PAID` when the transaction list is present, non-empty and
contains an entry with status `SUCCESSFUL`. -/
def normalizeStatus (checkout : SumUpCheckout) : String :=
  match checkout.transactions with
  | some txns =>
      if 0 < txns.length then
        match findSuccessful txns with
        | some _ => "PAID"
        | none => checkout.status
      else checkout.status
  | none => checkout.status

/-- Customer fields posted by the checkout page; any of them may be absent
(the server never validates them). -/
structure CustomerData where
  firstName : Option String
  lastName : Option String
  email : Option String
  phone : Option String
  address : Option String
  postalCode : Option String
  city : Option String
  country : Option String
  deriving Repr, DecidableEq

/-- One Shopify cart entry as consumed by `createShopifyOrder`
(`variant_id`, `quantity`, `price` in minor units). -/
structure CartItem where
  title : Option String
  variant_id : Option Nat
  quantity : Nat
  price : Nat
  deriving Repr, DecidableEq

/-- The cart snapshot (`cartData`) echoed back by the client. -/
structure CartData where
  items : List CartItem
  total_price : Nat
  currency : Option String
  deriving Repr, DecidableEq

/-- Two-digit zero padding for the fractional part of a decimal string. -/
def pad2 (n : Nat) : String :=
  if n < 10 then "0" ++ toString n else toString n

/-- JS `q.toFixed(2)` for the non-negative exact rationals this service
produces: round to the nearest hundredth and print with two decimals. -/
def jsToFixed2 (q : ℚ) : String :=
  let n : Int := round (q * 100)
  let m : Nat := n.toNat
  toString (m / 100) ++ "." ++ pad2 (m % 100)

/-- Spec-side renderer, following the spec's words: the minor-unit price
divided by 100, rendered with exactly two decimals. Compared against the
source's `(price / 100).toFixed(2)` in the price-conversion theorem. -/
def specTwoDecimalOfMinorUnits (n : Nat) : String :=
  toString (n / 100) ++ "." ++ pad2 (n % 100)

/-- Shopify order line item (src/server.js lines 122-126). -/
structure LineItem where
  variant_id : Option Nat
  quantity : Nat
  price : String
  deriving Repr, DecidableEq

/-- Shopify order customer block (src/server.js lines 127-132). -/
structure Customer where
  first_name : Option String
  last_name : Option String
  email : Option String
  phone : String
  deriving Repr, DecidableEq

/-- Shopify billing/shipping address block (src/server.js lines 133-150). -/
structure Address where
  first_name : Option String
  last_name : Option String
  address1 : Option String
  phone : String
  city : Option String
  zip : Option String
  country : Option String
  deriving Repr, DecidableEq

/-- The single payment transaction recorded on the Shopify order
(src/server.js lines 151-160). -/
structure OrderTransaction where
  kind : String
  status : String
  amount : String
  currency : String
  gateway : String
  authorization : String
  deriving Repr, DecidableEq

/-- The full order payload `createShopifyOrder` posts to Shopify
(src/server.js lines 114-163). -/
structure ShopifyOrderPayload where
  email : Option String
  financial_status : String
  fulfillment_status : Option String
  send_receipt : Bool
  send_fulfillment_receipt : Bool
  note : String
  line_items : List LineItem
  customer : Customer
  billing_address : Address
  shipping_address : Address
  transactions : List OrderTransaction
  tags : String
  deriving Repr, DecidableEq

/-- Billing and shipping address are built identically from the customer
fields (src/server.js lines 133-150). -/
def customerAddress (customerData : CustomerData) : Address :=
  { first_name := customerData.firstName
    last_name := customerData.lastName
    address1 := customerData.address
    phone := jsOrStr customerData.phone ""
    city := customerData.city
    zip := customerData.postalCode
    country := customerData.country }

/-- The `orderData` object built by `createShopifyOrder`
(src/server.js lines 114-163). `transactionData` is `none` when the JS
code passes the empty object `{}` (no successful transaction found). -/
def orderData (customerData : CustomerData) (cartData : CartData)
    (checkoutId : String) (transactionData : Option Transaction) :
    ShopifyOrderPayload :=
  { email := customerData.email
    financial_status := "paid"
    fulfillment_status := none
    send_receipt := true
    send_fulfillment_receipt := false
    note := "Pagado via SumUp. Checkout ID: " ++ checkoutId
    line_items := cartData.items.map (fun item =>
      { variant_id := item.variant_id
        quantity := item.quantity
        price := jsToFixed2 ((item.price : ℚ) / 100) })
    customer :=
      { first_name := customerData.firstName
        last_name := customerData.lastName
        email := customerData.email
        phone := jsOrStr customerData.phone "" }
    billing_address := customerAddress customerData
    shipping_address := customerAddress customerData
    transactions := [
      { kind := "sale"
        status := "success"
        amount := jsToFixed2 ((cartData.total_price : ℚ) / 100)
        currency := jsOrStr cartData.currency "EUR"
        gateway := "SumUp"
        authorization :=
          match transactionData with
          | some txn => jsOrStr txn.transaction_code checkoutId
          | none => checkoutId }]
    tags := "SumUp, Paid" }

/-- Metadata stored in `pendingOrders` at session creation
(src/server.js lines 372-379). -/
structure PendingOrder where
  order_id : Option String
  cart_token : Option String
  amount : Option String
  currency : Option String
  return_url : Option String
  created_at : Nat
  deriving Repr, DecidableEq

/-- The in-memory `pendingOrders` map (src/server.js line 26), as an
association list keyed by the SumUp checkout id. -/
abbrev Store := List (String × PendingOrder)

/-- The Shopify order object as far as the handler reads it
(`response.data.order.id`, `.order_number`). -/
structure ShopifyOrder where
  id : Nat
  order_number : Nat
  deriving Repr, DecidableEq

/-- Request body of `POST /api/save-customer-data`
(src/server.js line 191). `cartData` may be absent. -/
structure SaveCustomerBody where
  checkoutId : String
  customerData : CustomerData
  cartData : Option CartData
  deriving Repr, DecidableEq

/-- JSON response of `POST /api/save-customer-data`. `status` is one of
`success`, `partial_success`, `error` (src/server.js lines 221-249). -/
structure SaveCustomerResponse where
  httpStatus : Nat
  status : String
  message : String
  shopify_order_id : Option Nat
  shopify_order_number : Option Nat
  error : Option String
  deriving Repr, DecidableEq

/-- Handler of `POST /api/save-customer-data` (src/server.js lines 189-251).
`checkoutFetch` is the result of the SumUp `GET /checkouts/:id` call;
`shopifyPost` is the result the Shopify order-creation call would return.
Returns the response, the (unchanged: the handler never references
`pendingOrders`) store, and the list of order-creation payloads posted to
Shopify. Note the handler gates order creation only on the cart being
non-empty; it never consults the payment status, and the store holds no
per-session latch. -/
def saveCustomerData (store : Store) (body : SaveCustomerBody)
    (checkoutFetch : Except String SumUpCheckout)
    (shopifyPost : Except String ShopifyOrder) :
    SaveCustomerResponse × Store × List ShopifyOrderPayload :=
  match checkoutFetch with
  | Except.error msg =>
      ({ httpStatus := 500, status := "error", message := msg,
         shopify_order_id := none, shopify_order_number := none,
         error := none }, store, [])
  | Except.ok checkout =>
      let transactionData : Option Transaction :=
        match checkout.transactions with
        | some txns => if 0 < txns.length then findSuccessful txns else none
        | none => none
      match body.cartData with
      | some cartData =>
          if 0 < cartData.items.length then
            let payload :=
              orderData body.customerData cartData body.checkoutId transactionData
            match shopifyPost with
            | Except.ok order =>
                ({ httpStatus := 200, status := "success",
                   message := "Customer data saved and Shopify order created",
                   shopify_order_id := some order.id,
                   shopify_order_number := some order.order_number,
                   error := none }, store, [payload])
            | Except.error emsg =>
                ({ httpStatus := 200, status := "partial_success",
                   message := "Customer data saved but Shopify order creation failed",
                   shopify_order_id := none, shopify_order_number := none,
                   error := some emsg }, store, [payload])
          else
            ({ httpStatus := 200, status := "success",
               message := "Customer data saved",
               shopify_order_id := none, shopify_order_number := none,
               error := none }, store, [])
      | none =>
          ({ httpStatus := 200, status := "success",
             message := "Customer data saved",
             shopify_order_id := none, shopify_order_number := none,
             error := none }, store, [])

/-- Two consecutive confirmation requests for the same body, the second
running on the store state left by the first; returns both responses, the
final store, and all order-creation calls issued. -/
def confirmTwice (store : Store) (body : SaveCustomerBody)
    (fetch1 fetch2 : Except String SumUpCheckout)
    (shop1 shop2 : Except String ShopifyOrder) :
    SaveCustomerResponse × SaveCustomerResponse × Store × List ShopifyOrderPayload :=
  let r1 := saveCustomerData store body fetch1 shop1
  let r2 := saveCustomerData r1.2.1 body fetch2 shop2
  (r1.1, r2.1, r2.2.1, r1.2.2 ++ r2.2.2)

/-- JSON response of `GET /api/check-payment/:checkoutId`
(src/server.js lines 320-331). The `FAILED` diagnostics branch (lines
288-318) only logs and does not affect the response. -/
structure CheckPaymentResponse where
  httpStatus : Nat
  status : String
  checkout : Option SumUpCheckout
  message : Option String
  deriving Repr, DecidableEq

/-- Handler of `GET /api/check-payment/:checkoutId`
(src/server.js lines 254-332). The handler never references
`pendingOrders`, so the store comes back unchanged. -/
def checkPayment (store : Store) (checkoutId : String)
    (checkoutFetch : Except String SumUpCheckout) :
    CheckPaymentResponse × Store :=
  match checkoutFetch with
  | Except.ok checkout =>
      ({ httpStatus := 200, status := normalizeStatus checkout,
         checkout := some checkout, message := none }, store)
  | Except.error msg =>
      ({ httpStatus := 500, status := "error",
         checkout := none, message := some msg }, store)

/-- Digit-run parser used by `parseFloatQ`. -/
def parseNatDigits (cs : List Char) : Option Nat :=
  if cs ≠ [] ∧ cs.all Char.isDigit then
    some (cs.foldl (fun n c => n * 10 + (c.toNat - 48)) 0)
  else none

/-- JS `parseFloat` restricted to the non-negative decimal literals this
service receives as `amount` query strings (digits, optionally a dot and
more digits). -/
def parseFloatQ (s : String) : ℚ :=
  let cs := s.toList
  let intPart := cs.takeWhile (fun c => c ≠ '.')
  let rest := cs.dropWhile (fun c => c ≠ '.')
  match rest with
  | [] => (((parseNatDigits intPart).getD 0 : Nat) : ℚ)
  | _ :: frac =>
      (((parseNatDigits intPart).getD 0 : Nat) : ℚ)
        + (((parseNatDigits frac).getD 0 : Nat) : ℚ) / ((10 : ℚ) ^ frac.length)

/-- JS `.toUpperCase()` on the ASCII currency codes this service sees. -/
def jsToUpper (s : String) : String :=
  String.mk (s.toList.map Char.toUpper)

/-- The `checkoutData` object posted to SumUp `POST /v0.1/checkouts`
(src/server.js lines 346-352). -/
structure CheckoutData where
  checkout_reference : String
  amount : ℚ
  currency : String
  pay_to_email : String
  description : String
  deriving Repr, DecidableEq

/-- Error carried by a failed upstream (axios) call: message, upstream
HTTP status code and upstream response body. -/
structure UpstreamErr where
  message : String
  statusCode : Option Nat
  body : String
  deriving Repr, DecidableEq

/-- Outcome of `GET /checkout`: 400 missing-parameter rejection, the
rendered payment page bound to the created session id, or the 500 error
page rendered from the upstream failure (src/server.js lines 338-340,
383-815, 822-833). -/
inductive CheckoutResult where
  | badRequest (message : String)
  | paymentPage (checkoutId : String)
  | upstreamFailure (err : UpstreamErr)
  deriving Repr, DecidableEq

/-- Handler of `GET /checkout` (src/server.js lines 335-835): validate
presence of `amount` and `currency` (JS truthiness on the raw query
strings), build the checkout reference and `checkoutData`, call SumUp
(`providerPost` oracle), and on success store the pending-order metadata
keyed by the provider-assigned checkout id — only when `order_id` is
truthy. Returns the result, the updated store, and the provider calls
issued. -/
def createCheckout (store : Store)
    (amount currency order_id return_url cart_token : Option String)
    (now : Nat) (providerPost : Except UpstreamErr SumUpCheckout) :
    CheckoutResult × Store × List CheckoutData :=
  if ¬ jsTruthy amount ∨ ¬ jsTruthy currency then
    (CheckoutResult.badRequest "Faltan parametros requeridos: monto y moneda",
     store, [])
  else
    let checkoutRef :=
      if jsTruthy order_id then
        "shopify-" ++ (order_id.getD "") ++ "-" ++ toString now
      else
        "shopify-" ++ toString now
    let checkoutData : CheckoutData :=
      { checkout_reference := checkoutRef
        amount := parseFloatQ (amount.getD "")
        currency := jsToUpper (currency.getD "")
        pay_to_email := "yurkovsergii@gmail.com"
        description := "Pedido Shopify " ++ jsOrStr order_id "" }
    match providerPost with
    | Except.error e =>
        (CheckoutResult.upstreamFailure e, store, [checkoutData])
    | Except.ok checkout =>
        let store' :=
          if jsTruthy order_id then
            (checkout.id,
             { order_id := order_id, cart_token := cart_token,
               amount := amount, currency := currency,
               return_url := return_url, created_at := now }) :: store
          else store
        (CheckoutResult.paymentPage checkout.id, store', [checkoutData])

/-! Concrete fixtures used by witnesses and counterexamples. -/

/-- A successful SumUp transaction. -/
def demoTxn : Transaction := { status := "SUCCESSFUL", transaction_code := some "TX-1" }

/-- A checkout whose raw status is already `PAID` and which carries one
successful transaction. -/
def demoPaidCheckout : SumUpCheckout :=
  { id := "c1", status := "PAID", transactions := some [demoTxn] }

/-- A checkout whose raw status lags at `PENDING` although a successful
transaction exists — the normalization scenario of the spec. -/
def demoPendingCheckout : SumUpCheckout :=
  { id := "c2", status := "PENDING", transactions := some [demoTxn] }

/-- A failed checkout: raw status `FAILED`, no successful transaction. -/
def demoFailedCheckout : SumUpCheckout :=
  { id := "c3", status := "FAILED",
    transactions := some [{ status := "FAILED", transaction_code := none }] }

/-- A fully filled customer form. -/
def demoCustomer : CustomerData :=
  { firstName := some "Juan", lastName := some "Garcia",
    email := some "juan@ejemplo.com", phone := none,
    address := some "Calle Gran Via 123", postalCode := some "28013",
    city := some "Madrid", country := some "Espana" }

/-- A customer record with every field absent. -/
def blankCustomer : CustomerData :=
  { firstName := none, lastName := none, email := none, phone := none,
    address := none, postalCode := none, city := none, country := none }

/-- A one-item cart: quantity 1, price 1000 minor units (10.00 EUR). -/
def demoCart : CartData :=
  { items := [{ title := some "Product", variant_id := some 42,
                quantity := 1, price := 1000 }],
    total_price := 1000, currency := some "EUR" }

/-- A confirmation request body with the demo customer and cart. -/
def demoBody : SaveCustomerBody :=
  { checkoutId := "c1", customerData := demoCustomer, cartData := some demoCart }

/-- The Shopify order the commerce platform would answer with. -/
def demoOrder : ShopifyOrder := { id := 555, order_number := 1001 }

/-- A store holding the pending-order entry for session "c1". -/
def demoStore : Store :=
  [("c1", { order_id := some "1001", cart_token := none, amount := some "10.00",
            currency := some "EUR", return_url := none, created_at := 0 })]

/-- A freshly created SumUp session as returned by `POST /checkouts`. -/
def demoSumUpSession : SumUpCheckout :=
  { id := "s-new", status := "PENDING", transactions := none }

/-- An upstream failure carrying the provider's status code and body. -/
def demoErr : UpstreamErr :=
  { message := "Request failed with status code 401",
    statusCode := some 401, body := "unauthorized" }

/-- The cart items of a possibly-absent cart (absent counts as empty,
matching the JS guard `cartData && cartData.items && cartData.items.length > 0`). -/
def cartItems : Option CartData → List CartItem
  | some c => c.items
  | none => []

/-! Helper lemmas. -/

/-- If the transaction list contains a `SUCCESSFUL` entry, the normalized
status is `PAID`. -/
theorem normalizeStatus_of_successful (co : SumUpCheckout)
    (h : ∃ t ∈ co.transactions.getD [], t.status = "SUCCESSFUL") :
    normalizeStatus co = "PAID" := by
  obtain ⟨t, ht, hst⟩ := h
  cases hco : co.transactions with
  | none => rw [hco] at ht; simp at ht
  | some txns =>
      rw [hco] at ht
      simp only [Option.getD_some] at ht
      have hlen : 0 < txns.length := List.length_pos.mpr (List.ne_nil_of_mem ht)
      have hsome : (findSuccessful txns).isSome := by
        simp only [findSuccessful, List.find?_isSome]
        exact ⟨t, ht, by simp [hst]⟩
      obtain ⟨t2, ht2⟩ := Option.isSome_iff_exists.mp hsome
      simp [normalizeStatus, hco, hlen, ht2]

/-- If no transaction is `SUCCESSFUL`, the raw status is returned. -/
theorem normalizeStatus_of_no_successful (co : SumUpCheckout)
    (h : ∀ t ∈ co.transactions.getD [], t.status ≠ "SUCCESSFUL") :
    normalizeStatus co = co.status := by
  cases hco : co.transactions with
  | none => simp [normalizeStatus, hco]
  | some txns =>
      have hnone : findSuccessful txns = none := by
        simp only [findSuccessful, List.find?_eq_none, decide_eq_true_eq]
        intro t ht
        exact h t (by rw [hco]; simpa using ht)
      by_cases hlen : 0 < txns.length
      · simp [normalizeStatus, hco, hlen, hnone]
      · simp [normalizeStatus, hco, hlen]

/-- The source's `(n / 100).toFixed(2)` on an integer minor-unit price
agrees with the spec-side two-decimal rendering. -/
theorem jsToFixed2_minorUnits (n : Nat) :
    jsToFixed2 ((n : ℚ) / 100) = specTwoDecimalOfMinorUnits n := by
  unfold jsToFixed2 specTwoDecimalOfMinorUnits
  have h : ((n : ℚ) / 100) * 100 = (n : ℚ) := div_mul_cancel₀ _ (by norm_num)
  rw [h, round_natCast]
  simp

/-! Claim theorems. -/

/-- Claim C1, evaluated at the failing input: the confirmation handler has
no re-entry guard — `pendingOrders` is never read and no per-session latch
exists — so two confirmation requests for the same session (normalized
status `PAID`, non-empty cart) issue TWO order-creation calls to the
commerce platform, not one. The claim (exactly-once, a one-way edge into
`CONFIRMED`) is what the spec requires; the code does not implement it. -/
theorem confirmTwice_fires_twice :
    normalizeStatus demoPaidCheckout = "PAID" ∧
    demoBody.cartData = some demoCart ∧ demoCart.items ≠ [] ∧
    (confirmTwice demoStore demoBody
        (Except.ok demoPaidCheckout) (Except.ok demoPaidCheckout)
        (Except.ok demoOrder) (Except.ok demoOrder)).2.2.2.length = 2 := by
  refine ⟨by decide, rfl, by decide, rfl⟩

/-- Claim C2, evaluated at the failing input: the handler gates order
creation only on the cart being non-empty and never consults the payment
status, so a confirmation request for a session whose normalized status is
`FAILED` (no `SUCCESSFUL` transaction) still issues one order-creation
call — and even reports `success`. The claim (no order for non-PAID
status) is the spec's intent; the code does not check status. -/
theorem saveCustomerData_failed_still_orders :
    normalizeStatus demoFailedCheckout = "FAILED" ∧
    (saveCustomerData demoStore demoBody
        (Except.ok demoFailedCheckout) (Except.ok demoOrder)).2.2.length = 1 ∧
    (saveCustomerData demoStore demoBody
        (Except.ok demoFailedCheckout) (Except.ok demoOrder)).1.status = "success" := by
  refine ⟨by decide, rfl, by decide⟩

/-- Claim C3: the status returned by `GET /api/check-payment/:sessionId`
is `PAID` whenever the session's transaction list contains an entry with
status `SUCCESSFUL`, regardless of the raw session status; when no such
transaction exists the raw status is returned unchanged. -/
theorem checkPayment_normalization (s : Store) (cid : String) (co : SumUpCheckout) :
    ((∃ t ∈ co.transactions.getD [], t.status = "SUCCESSFUL") →
        (checkPayment s cid (Except.ok co)).1.status = "PAID") ∧
    ((∀ t ∈ co.transactions.getD [], t.status ≠ "SUCCESSFUL") →
        (checkPayment s cid (Except.ok co)).1.status = co.status) := by
  constructor
  · intro h
    simp [checkPayment, normalizeStatus_of_successful co h]
  · intro h
    simp [checkPayment, normalizeStatus_of_no_successful co h]

/-- Witness for C3 at the spec's scenario: raw status `PENDING` with one
`SUCCESSFUL` transaction is reported as `PAID`. -/
theorem checkPayment_normalization_witness :
    (checkPayment demoStore "c2" (Except.ok demoPendingCheckout)).1.status = "PAID" :=
  (checkPayment_normalization demoStore "c2" demoPendingCheckout).1
    ⟨demoTxn, by decide, by decide⟩

/-- Claim C4 counterexample: a confirmation request with an absent cart
does NOT fail with a ValidationError — the handler answers HTTP 200 with
status `success` ("Customer data saved"), and the commerce endpoint is
never called. -/
theorem saveCustomerData_empty_cart_success :
    (saveCustomerData demoStore
        { checkoutId := "c1", customerData := demoCustomer, cartData := none }
        (Except.ok demoPaidCheckout) (Except.ok demoOrder)).1.status = "success" ∧
    (saveCustomerData demoStore
        { checkoutId := "c1", customerData := demoCustomer, cartData := none }
        (Except.ok demoPaidCheckout) (Except.ok demoOrder)).1.httpStatus = 200 ∧
    (saveCustomerData demoStore
        { checkoutId := "c1", customerData := demoCustomer, cartData := none }
        (Except.ok demoPaidCheckout) (Except.ok demoOrder)).2.2 = [] := by
  refine ⟨by decide, by decide, rfl⟩

/-- Claim C4 (amended): for every confirmation request whose cart is empty
or absent, the remote commerce endpoint is never called (materialization
is skipped, not retried), and when the provider status fetch succeeds the
handler responds HTTP 200 with status `success` — it does not fail with a
ValidationError. -/
theorem saveCustomerData_empty_cart (s : Store) (b : SaveCustomerBody)
    (f : Except String SumUpCheckout) (sh : Except String ShopifyOrder)
    (h : cartItems b.cartData = []) :
    (saveCustomerData s b f sh).2.2 = [] ∧
    (∀ co, f = Except.ok co →
      (saveCustomerData s b f sh).1.status = "success" ∧
      (saveCustomerData s b f sh).1.httpStatus = 200) := by
  cases f with
  | error msg =>
      exact ⟨by simp [saveCustomerData], by intro co hco; cases hco⟩
  | ok co =>
      cases hb : b.cartData with
      | none =>
          refine ⟨by simp [saveCustomerData, hb], ?_⟩
          intro co2 hco2
          simp [saveCustomerData, hb]
      | some cart =>
          have hcart : cart.items = [] := by simpa [cartItems, hb] using h
          refine ⟨by simp [saveCustomerData, hb, hcart], ?_⟩
          intro co2 hco2
          simp [saveCustomerData, hb, hcart]

/-- Witness for C4 (amended) at a concrete empty-cart request. -/
theorem saveCustomerData_empty_cart_witness :
    (saveCustomerData demoStore
        { checkoutId := "c9", customerData := blankCustomer, cartData := none }
        (Except.ok demoPaidCheckout) (Except.ok demoOrder)).2.2 = [] :=
  (saveCustomerData_empty_cart demoStore
      { checkoutId := "c9", customerData := blankCustomer, cartData := none }
      (Except.ok demoPaidCheckout) (Except.ok demoOrder) (by decide)).1

/-- Claim C5 counterexample: a checkout request with amount "0" is NOT
rejected — `!amount` is false for the non-empty string "0", so the
provider is called (with amount 0) and the payment page is rendered. -/
theorem createCheckout_amount_zero_not_rejected :
    (createCheckout [] (some "0") (some "EUR") (some "1001") none none 7
        (Except.ok demoSumUpSession)).1 = CheckoutResult.paymentPage "s-new" ∧
    (createCheckout [] (some "0") (some "EUR") (some "1001") none none 7
        (Except.ok demoSumUpSession)).2.2 =
      [{ checkout_reference := "shopify-1001-7", amount := 0, currency := "EUR",
         pay_to_email := "yurkovsergii@gmail.com",
         description := "Pedido Shopify 1001" }] := by
  refine ⟨by decide, by decide⟩

/-- Claim C5 (amended): a checkout request with missing or empty `amount`,
or missing or empty `currency`, is rejected with HTTP 400 before any
outbound call, leaving the store unchanged; the check is a presence check
only, so the non-empty string "0" passes it. -/
theorem createCheckout_missing_params (s : Store)
    (amount currency order_id return_url cart_token : Option String)
    (now : Nat) (p : Except UpstreamErr SumUpCheckout)
    (h : ¬ jsTruthy amount ∨ ¬ jsTruthy currency) :
    createCheckout s amount currency order_id return_url cart_token now p
      = (CheckoutResult.badRequest "Faltan parametros requeridos: monto y moneda",
         s, []) := by
  unfold createCheckout
  rw [if_pos h]

/-- Witness for C5 (amended) with the amount parameter absent. -/
theorem createCheckout_missing_params_witness :
    (¬ jsTruthy (none : Option String) ∨ ¬ jsTruthy (some "EUR")) ∧
    createCheckout demoStore none (some "EUR") none none none 3
        (Except.ok demoSumUpSession)
      = (CheckoutResult.badRequest "Faltan parametros requeridos: monto y moneda",
         demoStore, []) :=
  ⟨Or.inl (by decide),
   createCheckout_missing_params demoStore none (some "EUR") none none none 3
     (Except.ok demoSumUpSession) (Or.inl (by decide))⟩

/-- Claim C6: when the provider's session-creation call fails, the
checkout handler yields the upstream failure — the very error value
carrying the provider's message, status code and body — and the session
store is left exactly unchanged: no partial session is persisted for any
order reference. -/
theorem createCheckout_upstream_atomic (s : Store)
    (amount currency order_id return_url cart_token : Option String)
    (now : Nat) (e : UpstreamErr)
    (ha : jsTruthy amount) (hc : jsTruthy currency) :
    (createCheckout s amount currency order_id return_url cart_token now
        (Except.error e)).1 = CheckoutResult.upstreamFailure e ∧
    (createCheckout s amount currency order_id return_url cart_token now
        (Except.error e)).2.1 = s := by
  have hcond : ¬ (¬ jsTruthy amount ∨ ¬ jsTruthy currency) := by
    simp [ha, hc]
  unfold createCheckout
  rw [if_neg hcond]
  exact ⟨rfl, rfl⟩

/-- Witness for C6: a concrete 401 provider failure leaves the store
untouched. -/
theorem createCheckout_upstream_atomic_witness :
    (jsTruthy (some "10.00") ∧ jsTruthy (some "EUR")) ∧
    (createCheckout demoStore (some "10.00") (some "EUR") (some "1001") none none 5
        (Except.error demoErr)).1 = CheckoutResult.upstreamFailure demoErr ∧
    (createCheckout demoStore (some "10.00") (some "EUR") (some "1001") none none 5
        (Except.error demoErr)).2.1 = demoStore :=
  ⟨⟨by decide, by decide⟩,
   (createCheckout_upstream_atomic demoStore (some "10.00") (some "EUR")
      (some "1001") none none 5 demoErr (by decide) (by decide)).1,
   (createCheckout_upstream_atomic demoStore (some "10.00") (some "EUR")
      (some "1001") none none 5 demoErr (by decide) (by decide)).2⟩

/-- Claim C7: when the downstream order-creation call fails on a non-empty
cart, the handler answers HTTP 200 with status `partial_success`, carries
the failure message in the response (surfaced, not dropped), attempts
exactly one order-creation call (no retry), and does not report the
payment as failed. -/
theorem saveCustomerData_partial_success (s : Store) (b : SaveCustomerBody)
    (cart : CartData) (co : SumUpCheckout) (emsg : String)
    (hb : b.cartData = some cart) (hne : cart.items ≠ []) :
    (saveCustomerData s b (Except.ok co) (Except.error emsg)).1.httpStatus = 200 ∧
    (saveCustomerData s b (Except.ok co) (Except.error emsg)).1.status
      = "partial_success" ∧
    (saveCustomerData s b (Except.ok co) (Except.error emsg)).1.error = some emsg ∧
    (saveCustomerData s b (Except.ok co) (Except.error emsg)).2.2.length = 1 := by
  have hlen : 0 < cart.items.length := List.length_pos.mpr hne
  refine ⟨?_, ?_, ?_, ?_⟩ <;> simp [saveCustomerData, hb, hlen]

/-- Witness for C7 at a concrete Shopify failure. -/
theorem saveCustomerData_partial_success_witness :
    demoBody.cartData = some demoCart ∧ demoCart.items ≠ [] ∧
    (saveCustomerData demoStore demoBody (Except.ok demoPaidCheckout)
        (Except.error "Request failed with status code 422")).1.status
      = "partial_success" :=
  ⟨rfl, by decide,
   (saveCustomerData_partial_success demoStore demoBody demoCart demoPaidCheckout
      "Request failed with status code 422" rfl (by decide)).2.1⟩

/-- Claim C8: in the order payload sent to the commerce platform, every
line item's unit price is the cart entry's minor-unit price divided by 100
rendered with exactly two decimals, and the single transaction's amount is
the cart's total minor-unit price in the same rendering; in particular
price 1000 yields "10.00". -/
theorem orderData_minor_unit_prices (c : CustomerData) (cart : CartData)
    (cid : String) (t : Option Transaction) :
    ((orderData c cart cid t).line_items.map LineItem.price
       = cart.items.map (fun item => specTwoDecimalOfMinorUnits item.price)) ∧
    ((orderData c cart cid t).transactions.map OrderTransaction.amount
       = [specTwoDecimalOfMinorUnits cart.total_price]) ∧
    specTwoDecimalOfMinorUnits 1000 = "10.00" := by
  refine ⟨?_, ?_, by decide⟩
  · simp [orderData, List.map_map, Function.comp, jsToFixed2_minorUnits]
  · simp [orderData, jsToFixed2_minorUnits]

/-- Claim C9 counterexample: the status and confirmation handlers do not
depend on the stored session entry — with the entry for "c1" present
(`demoStore`) and absent (empty store), both handlers return identical
responses and issue identical order-creation calls. -/
theorem handlers_do_not_read_store :
    demoStore.lookup "c1" ≠ ([] : Store).lookup "c1" ∧
    (checkPayment demoStore "c1" (Except.ok demoPaidCheckout)).1
      = (checkPayment [] "c1" (Except.ok demoPaidCheckout)).1 ∧
    (saveCustomerData demoStore demoBody (Except.ok demoPaidCheckout)
        (Except.ok demoOrder)).1
      = (saveCustomerData [] demoBody (Except.ok demoPaidCheckout)
          (Except.ok demoOrder)).1 ∧
    (saveCustomerData demoStore demoBody (Except.ok demoPaidCheckout)
        (Except.ok demoOrder)).2.2
      = (saveCustomerData [] demoBody (Except.ok demoPaidCheckout)
          (Except.ok demoOrder)).2.2 := by
  refine ⟨by decide, rfl, rfl, rfl⟩

/-- Claim C9 (amended): the session store is written only by the
checkout-creation handler (and only when an order reference is supplied);
the status and confirmation handlers neither read nor mutate it — they
return the store unchanged, and their responses and order-creation calls
are independent of the store's contents. -/
theorem store_frame_conditions :
    (∀ (s s2 : Store) (cid : String) (f : Except String SumUpCheckout),
        (checkPayment s cid f).2 = s ∧
        (checkPayment s cid f).1 = (checkPayment s2 cid f).1) ∧
    (∀ (s s2 : Store) (b : SaveCustomerBody) (f : Except String SumUpCheckout)
        (sh : Except String ShopifyOrder),
        (saveCustomerData s b f sh).2.1 = s ∧
        (saveCustomerData s b f sh).1 = (saveCustomerData s2 b f sh).1 ∧
        (saveCustomerData s b f sh).2.2 = (saveCustomerData s2 b f sh).2.2) ∧
    (∀ (s : Store) (amount currency order_id return_url cart_token : Option String)
        (now : Nat) (p : Except UpstreamErr SumUpCheckout),
        (createCheckout s amount currency order_id return_url cart_token now p).2.1
          = s ∨
        (jsTruthy order_id ∧ ∃ co, p = Except.ok co ∧
          (createCheckout s amount currency order_id return_url cart_token now p).2.1
            = (co.id,
               { order_id := order_id, cart_token := cart_token, amount := amount,
                 currency := currency, return_url := return_url,
                 created_at := now }) :: s)) := by
  refine ⟨?_, ?_, ?_⟩
  · intro s s2 cid f
    cases f <;> simp [checkPayment]
  · intro s s2 b f sh
    cases f with
    | error m => simp [saveCustomerData]
    | ok co =>
        cases hb : b.cartData with
        | none => simp [saveCustomerData, hb]
        | some cart =>
            by_cases hlen : 0 < cart.items.length
            · cases sh <;> simp [saveCustomerData, hb, hlen]
            · simp [saveCustomerData, hb, hlen]
  · intro s amount currency order_id return_url cart_token now p
    by_cases hv : ¬ jsTruthy amount ∨ ¬ jsTruthy currency
    · left
      unfold createCheckout
      rw [if_pos hv]
    · cases p with
      | error e =>
          left
          unfold createCheckout
          rw [if_neg hv]
      | ok co =>
          by_cases ho : jsTruthy order_id
          · right
            refine ⟨ho, co, rfl, ?_⟩
            unfold createCheckout
            rw [if_neg hv]
            simp [ho]
          · left
            unfold createCheckout
            rw [if_neg hv]
            simp [ho]

/-- Claim C10: the confirmation endpoint performs no server-side
validation of the customer fields: for every customer record — all fields
absent or empty included — and every non-empty cart, the handler attempts
exactly one order-creation call built from whatever fields are present,
and never rejects the request as invalid (the response is HTTP 200 with
status `success` or `partial_success`). -/
theorem saveCustomerData_no_customer_validation (s : Store) (cd : CustomerData)
    (cid : String) (cart : CartData) (co : SumUpCheckout)
    (sh : Except String ShopifyOrder) (hne : cart.items ≠ []) :
    (saveCustomerData s { checkoutId := cid, customerData := cd, cartData := some cart }
        (Except.ok co) sh).2.2.length = 1 ∧
    ((saveCustomerData s { checkoutId := cid, customerData := cd, cartData := some cart }
        (Except.ok co) sh).1.status = "success" ∨
     (saveCustomerData s { checkoutId := cid, customerData := cd, cartData := some cart }
        (Except.ok co) sh).1.status = "partial_success") ∧
    (saveCustomerData s { checkoutId := cid, customerData := cd, cartData := some cart }
        (Except.ok co) sh).1.httpStatus = 200 := by
  have hlen : 0 < cart.items.length := List.length_pos.mpr hne
  cases sh with
  | ok order =>
      refine ⟨?_, Or.inl ?_, ?_⟩ <;> simp [saveCustomerData, hlen]
  | error emsg =>
      refine ⟨?_, Or.inr ?_, ?_⟩ <;> simp [saveCustomerData, hlen]

/-- Witness for C10: a customer record with every field absent still
produces exactly one order-creation call. -/
theorem saveCustomerData_no_customer_validation_witness :
    demoCart.items ≠ [] ∧
    (saveCustomerData []
        { checkoutId := "c7", customerData := blankCustomer, cartData := some demoCart }
        (Except.ok demoPaidCheckout) (Except.ok demoOrder)).2.2.length = 1 :=
  ⟨by decide,
   (saveCustomerData_no_customer_validation [] blankCustomer "c7" demoCart
      demoPaidCheckout (Except.ok demoOrder) (by decide)).1⟩

end Gateway
